import Mathlib

/-!
Verification development for the dwdbulk data pipeline
(resource discovery, station / measurement / forecast parsing,
normalization and deduplication).

Python strings are embedded as `List Char`; machine integers as `Int`/`Nat`;
fallible code returns `Except`/`Option` (an `Except.error` models a raised
Python exception, a plain return models normal control flow).
-/

set_option maxRecDepth 4000

/-- Strings of the embedded program: Python `str` as a list of characters. -/
abbrev Str := List Char

/-- Coercion helper turning a Lean string literal into the embedded type. -/
def str (s : String) : Str := s.data

/-- Characters treated as whitespace by Python's argument-less `str.split()`
(the ASCII whitespace subset, which covers all inputs in this pipeline). -/
def isPySpace (c : Char) : Bool :=
  c = ' ' ∨ c = '\t' ∨ c = '\n' ∨ c = '\r' ∨ c = '\x0b' ∨ c = '\x0c'

/-- Auxiliary splitter: returns the current (first) field and the list of the
remaining fields, splitting at every character satisfying `p` and keeping
empty fields, exactly like Python `str.split(sep)` for a one-character `sep`. -/
def pySplitAux (p : Char → Bool) : Str → Str × List Str
  | [] => ([], [])
  | c :: cs =>
    let r := pySplitAux p cs
    if p c then ([], r.1 :: r.2) else (c :: r.1, r.2)

/-- Split at every character satisfying `p`, keeping empty fields
(Python `s.split(sep)` semantics: `"".split(sep) == [""]`). -/
def pySplitAny (p : Char → Bool) (s : Str) : List Str :=
  (pySplitAux p s).1 :: (pySplitAux p s).2

/-- Python `s.split(sep)` for a single separator character `sep`. -/
def pySplitOn (sep : Char) (s : Str) : List Str :=
  pySplitAny (fun c => c = sep) s

/-- Python `s.split()` (no argument): split on whitespace runs, discarding
empty fields, so leading/trailing whitespace produces no empty tokens. -/
def pySplitWs (s : Str) : List Str :=
  (pySplitAny isPySpace s).filter (fun t => ¬ t.isEmpty)

/-- Python `sep.join(parts)`. -/
def joinWith (sep : Str) : List Str → Str
  | [] => []
  | [t] => t
  | t :: ts => t ++ sep ++ joinWith sep ts

/-- Tokenization used by both forecast parsers on a packed value string:
the embedding of `" ".join(s.split()).split(" ")`. -/
def pyTokens (s : Str) : List Str :=
  pySplitOn ' ' (joinWith [' '] (pySplitWs s))

/-- Python `s.rstrip(c)` for a one-character strip set: drop every trailing
occurrence of `c`. -/
def rstrip (c : Char) (s : Str) : Str :=
  (s.reverse.dropWhile (fun x => x = c)).reverse

/-- Python `s.zfill(width)`: left-pad with the character `0` up to `width`,
keeping a leading sign character in front of the inserted zeros. -/
def pyZfill (width : Nat) (s : Str) : Str :=
  match s with
  | [] => List.replicate width '0'
  | c :: rest =>
    if c = '+' ∨ c = '-' then
      c :: (List.replicate (width - s.length) '0' ++ rest)
    else
      List.replicate (width - s.length) '0' ++ s

/-- Numeric value of an ASCII digit character, `none` on any other character. -/
def digitVal (c : Char) : Option Nat :=
  if c.isDigit then some (c.toNat - 48) else none

/-- Accumulating decimal-digit reader: fails on the first non-digit. -/
def parseDigitsAux : Nat → Str → Option Nat
  | acc, [] => some acc
  | acc, c :: cs =>
    match digitVal c with
    | some d => parseDigitsAux (10 * acc + d) cs
    | none => none

/-- Read a non-empty all-digit string as a natural number. -/
def parseDigits : Str → Option Nat
  | [] => none
  | c :: cs => parseDigitsAux 0 (c :: cs)

/-- Exact decimal number, the embedding of a parsed float literal: the value
is `mantissa / 10 ^ scale`.  DWD value tokens are short decimal literals, so
this representation is exact where IEEE doubles would round; no arithmetic is
ever performed on parsed values, only construction and comparison. -/
structure PyFloat where
  mantissa : Int
  scale : Nat
deriving DecidableEq, Repr

/-- Unsigned decimal literal: digit strings `"123"`, `"12.3"`, `"12."`,
`".3"`.  This models the plain decimal subset of Python `float(...)`, which
is the only token shape the pipeline's sources produce (exponent /
underscore / infinity forms never occur in DWD value strings). -/
def parseUnsignedDec (s : Str) : Option PyFloat :=
  match pySplitOn '.' s with
  | [ip] => (parseDigits ip).map (fun n => ⟨(n : Int), 0⟩)
  | [ip, fp] =>
    if ip.isEmpty ∧ fp.isEmpty then none
    else
      let ipn : Option Nat := if ip.isEmpty then some 0 else parseDigits ip
      let fpn : Option Nat := if fp.isEmpty then some 0 else parseDigits fp
      match ipn, fpn with
      | some a, some b => some ⟨((a * 10 ^ fp.length + b : Nat) : Int), fp.length⟩
      | _, _ => none
  | _ => none

/-- Signed decimal literal (model of Python `float(token)` on the pipeline's
token shapes). -/
def parseDec (s : Str) : Option PyFloat :=
  match s with
  | '-' :: rest => (parseUnsignedDec rest).map (fun f => ⟨-f.mantissa, f.scale⟩)
  | '+' :: rest => parseUnsignedDec rest
  | _ => parseUnsignedDec s

/-- Signed integer literal (model of an `int64`-typed pandas column read). -/
def parseInt (s : Str) : Option Int :=
  match s with
  | '-' :: rest => (parseDigits rest).map (fun n => -(n : Int))
  | '+' :: rest => (parseDigits rest).map (fun n => (n : Int))
  | _ => (parseDigits s).map (fun n => (n : Int))

/-- UTC timestamp at minute resolution, the embedding of the
`pd.Timestamp(..., tz="UTC")` values the pipeline produces (`%Y%m%d` dates
parse to midnight). -/
structure UTCTime where
  year : Nat
  month : Nat
  day : Nat
  hour : Nat
  minute : Nat
deriving DecidableEq, Repr

/-- Gregorian leap-year rule, as validated by pandas datetime parsing. -/
def isLeapYear (y : Nat) : Bool :=
  y % 4 = 0 ∧ (y % 100 ≠ 0 ∨ y % 400 = 0)

/-- Number of days of a month in a given year. -/
def daysInMonth (y m : Nat) : Nat :=
  if m = 2 then (if isLeapYear y then 29 else 28)
  else if m = 4 ∨ m = 6 ∨ m = 9 ∨ m = 11 then 30
  else 31

/-- Calendar validity of the field combination, mirroring the validation that
`pd.to_datetime(..., format=...)` performs before accepting a timestamp. -/
def validTime (y mo d h mi : Nat) : Bool :=
  1 ≤ mo ∧ mo ≤ 12 ∧ 1 ≤ d ∧ d ≤ daysInMonth y mo ∧ h ≤ 23 ∧ mi ≤ 59

/-- Two ASCII digit characters read as a number below 100. -/
def twoDigits (a b : Char) : Option Nat :=
  match digitVal a, digitVal b with
  | some x, some y => some (10 * x + y)
  | _, _ => none

/-- Four ASCII digit characters read as a number below 10000. -/
def fourDigits (a b c d : Char) : Option Nat :=
  match twoDigits a b, twoDigits c d with
  | some x, some y => some (100 * x + y)
  | _, _ => none

/-- Embedding of `pd.to_datetime(s, format="%Y%m%d", utc=True)` on a single
field: exactly eight digits making up a valid calendar date, at UTC midnight;
`none` stands for the `ValueError` pandas raises otherwise. -/
def parseYmd (s : Str) : Option UTCTime :=
  match s with
  | [y1, y2, y3, y4, m1, m2, d1, d2] =>
    match fourDigits y1 y2 y3 y4, twoDigits m1 m2, twoDigits d1 d2 with
    | some y, some mo, some d =>
      if validTime y mo d 0 0 then some ⟨y, mo, d, 0, 0⟩ else none
    | _, _, _ => none
  | _ => none

/-- Embedding of `pd.to_datetime(s, format="%Y%m%d%H%M", utc=True)` on a
single field: exactly twelve digits making up a valid timestamp. -/
def parseYmdHm (s : Str) : Option UTCTime :=
  match s with
  | [y1, y2, y3, y4, m1, m2, d1, d2, h1, h2, mi1, mi2] =>
    match fourDigits y1 y2 y3 y4, twoDigits m1 m2, twoDigits d1 d2,
          twoDigits h1 h2, twoDigits mi1 mi2 with
    | some y, some mo, some d, some h, some mi =>
      if validTime y mo d h mi then some ⟨y, mo, d, h, mi⟩ else none
    | _, _, _, _, _ => none
  | _ => none

/-- Pivot mapping for two-digit year tokens: `00`-`68` land in `2000`-`2068`,
`69`-`99` land in `1969`-`1999` (the standard Unix-epoch pivot). -/
def pivotYear (yy : Nat) : Nat :=
  if yy ≤ 68 then 2000 + yy else 1900 + yy

/-- Modelled from the spec: the dedicated Y2K-safe legacy timestamp reader
of `dwdbulk.util` (imported by the repository's tests but absent from the
sources under `src/`).  Per the spec it reads a
`YYMMDDHHMM` string, interprets the two-digit year through the Unix-epoch
pivot (`00`-`68` as 2000-2068, `69`-`99` as the twentieth century), and
yields a null timestamp (`none`) on any string that still fails to parse
after the pivot correction, instead of raising. -/
def y2k_date_parse (s : Str) : Option UTCTime :=
  match s with
  | [y1, y2, m1, m2, d1, d2, h1, h2, mi1, mi2] =>
    match twoDigits y1 y2, twoDigits m1 m2, twoDigits d1 d2,
          twoDigits h1 h2, twoDigits mi1 mi2 with
    | some yy, some mo, some d, some h, some mi =>
      if validTime (pivotYear yy) mo d h mi then
        some ⟨pivotYear yy, mo, d, h, mi⟩
      else none
    | _, _, _, _, _ => none
  | _ => none

/-- ASCII digit character of a digit value. -/
def digitChar (d : Nat) : Char := Char.ofNat (48 + d)

/-- Two-digit zero-padded rendering of a number below 100. -/
def render2 (n : Nat) : Str := [digitChar (n / 10), digitChar (n % 10)]

/-- Lexicographic comparison of embedded strings (by character code),
the order pandas uses when sorting a string column. -/
def strLe : Str → Str → Bool
  | [], _ => true
  | _ :: _, [] => false
  | a :: as, b :: bs =>
    if a.val < b.val then true
    else if b.val < a.val then false
    else strLe as bs

/-- Field-lexicographic comparison of timestamps; on calendar-valid values
this coincides with chronological order. -/
def utcLe (a b : UTCTime) : Bool :=
  if a.year ≠ b.year then a.year < b.year
  else if a.month ≠ b.month then a.month < b.month
  else if a.day ≠ b.day then a.day < b.day
  else if a.hour ≠ b.hour then a.hour < b.hour
  else a.minute ≤ b.minute

/-- Strict version of `utcLe`. -/
def utcLt (a b : UTCTime) : Bool :=
  utcLe a b ∧ a ≠ b

/-- Substring test: Python's `needle in hay` on strings. -/
def isSubstr (needle : Str) : Str → Bool
  | [] => needle.isEmpty
  | c :: cs => needle.isPrefixOf (c :: cs) || isSubstr needle cs

/-- Split a string at the first occurrence of `"://"`. -/
def splitAtScheme : Str → Option (Str × Str)
  | [] => none
  | c :: cs =>
    if (str "://").isPrefixOf (c :: cs) then some ([], (c :: cs).drop 3)
    else (splitAtScheme cs).map (fun pr => (c :: pr.1, pr.2))

/-- Scheme-and-host part of an absolute URL (everything before the path). -/
def schemeHost (base : Str) : Str :=
  match splitAtScheme base with
  | some (sch, rest) => sch ++ str "://" ++ rest.takeWhile (fun c => c ≠ '/')
  | none => base.takeWhile (fun c => c ≠ '/')

/-- Base URL truncated after its last path separator. -/
def dropLastSegment (base : Str) : Str :=
  (base.reverse.dropWhile (fun c => c ≠ '/')).reverse

/-- Model of `urllib.parse.urljoin(base, rel)` restricted to the link shapes
a directory listing produces: a full URL is returned unchanged, a
root-relative link is joined to the scheme-and-host of the base, and a
relative link replaces the last segment of the base. -/
def pyUrljoin (base rel : Str) : Str :=
  if rel.isEmpty then base
  else if isSubstr (str "://") rel then rel
  else if rel.head? = some '/' then schemeHost base ++ rel
  else dropLastSegment base ++ rel

/-- Start-tag event of the HTML tokenizer: the shallow embedding models the
directory-listing document by the stream of start-tag events that Python's
`html.parser.HTMLParser` delivers to `handle_starttag` (tag name plus
attribute name/value pairs); other event kinds are ignored by the code. -/
structure HtmlTag where
  tag : Str
  attrs : List (Str × Str)
deriving DecidableEq, Repr

/-- Embedding of `ListParser.handle_starttag` from `dwdbulk/util.py`: on an
anchor tag, append every `href` attribute value other than the
parent-directory link `"../"` to the accumulated data, in attribute order. -/
def handle_starttag (acc : List Str) (ev : HtmlTag) : List Str :=
  if ev.tag = str "a" then
    acc ++ ev.attrs.filterMap
      (fun kv => if kv.1 = str "href" ∧ kv.2 ≠ str "../" then some kv.2 else none)
  else acc

/-- Declarative description used to state properties of the list parser: all
`href` attribute values of anchor tags of one event, parent link included. -/
def rawAnchorHrefs (ev : HtmlTag) : List Str :=
  if ev.tag = str "a" then
    ev.attrs.filterMap (fun kv => if kv.1 = str "href" then some kv.2 else none)
  else []

/-- List concatenation of the images of `f`, used on the declarative side. -/
def concatMap (f : α → List β) : List α → List β
  | [] => []
  | x :: xs => f x ++ concatMap f xs

/-- Embedding of `parse_htmllist(baseurl, content, extension, full_url)` from
`dwdbulk/util.py`.  The `content` argument is the start-tag event stream; an
empty `extension` models both the `None` default and the empty string, which
are equally falsy in the source's `if extension:` test. -/
def parse_htmllist (baseurl : Str) (events : List HtmlTag)
    (extension : Str) (full_url : Bool) : List Str :=
  let paths := events.foldl handle_starttag []
  let paths := if ¬ extension.isEmpty
    then paths.filter (fun p => isSubstr extension p)
    else paths
  if full_url then paths.map (fun p => pyUrljoin (baseurl ++ ['/']) p)
  else paths.map (rstrip '/')

/-- HTTP response as the pipeline observes it: a status code, the parsed
start-tag stream of an HTML body, and the member names of a ZIP body. -/
structure HttpResponse where
  status : Nat
  events : List HtmlTag
  archiveMembers : List Str
deriving DecidableEq, Repr

/-- Errors of the embedded pipeline.  Each constructor stands for one Python
exception site; an `Except.error` value models that exception propagating to
the caller. -/
inductive PErr
  | fetchFailed (url : Str)
  | indexError
  | emptyInput
  | headerUnsupported
  | fieldCount
  | dateParse
  | intParse
  | floatParse
  | valueError
  | assertTimestepMismatch
  | concatError
deriving DecidableEq, Repr

/-- Embedding of `get_resource_index(url, extension, full_url)` from
`dwdbulk/util.py`: a response status other than 200 raises a `ValueError`
naming the url (`PErr.fetchFailed url`); otherwise the HTML link list is
parsed and returned. -/
def get_resource_index (url : Str) (resp : HttpResponse)
    (extension : Str) (full_url : Bool) : Except PErr (List Str) :=
  if resp.status ≠ 200 then .error (.fetchFailed url)
  else .ok (parse_htmllist url resp.events extension full_url)

/-- Embedding of `fetch_raw_forecast_xml(url, xml_directory_path)` from
`dwdbulk/api/forecasts.py`: on a 200 response the archive is extracted and
the path of its first member returned; on any other status the function
falls through its `if r.status_code == 200:` guard and returns `None`
without raising.  An empty archive would raise an `IndexError` at
`zipObj.namelist()[0]`. -/
def fetch_raw_forecast_xml (url : Str) (xmlDir : Str) (resp : HttpResponse) :
    Except PErr (Option Str) :=
  if resp.status = 200 then
    match resp.archiveMembers with
    | [] => .error .indexError
    | m :: _ => .ok (some (xmlDir ++ ['/'] ++ m))
  else .ok none

/-- Lift an `Option` into `Except`, tagging failure with a given error. -/
def ofOption (e : PErr) : Option α → Except PErr α
  | some a => .ok a
  | none => .error e

/-- Raw column names of a DWD station description table, in file order: the
keys of `station_metadata` in `dwdbulk/util.py`. -/
def stationRawHeader : List Str :=
  [str "Stations_id", str "von_datum", str "bis_datum", str "Stationshoehe",
   str "geoBreite", str "geoLaenge", str "Stationsname", str "Bundesland"]

/-- Station record after renaming and typing per `station_metadata`
(`station_id` str, dates, `height` int64, coordinates float64, two strings).
Numeric fields are optional because the sentinels `-999` / `-999   ` are
mapped to null by `na_values`. -/
structure StationRow where
  station_id : Str
  date_start : UTCTime
  date_end : UTCTime
  height : Option Int
  geo_lat : Option PyFloat
  geo_lon : Option PyFloat
  name : Str
  state : Str
deriving DecidableEq, Repr

/-- Sentinel test for the `na_values = ["-999", "-999   "]` list of
`dwdbulk/api/observations.py`. -/
def isNaSentinel (s : Str) : Bool :=
  s = str "-999" ∨ s = str "-999   "

/-- Nullable int64 field: sentinel to null, otherwise an integer literal. -/
def parseNaInt (s : Str) : Except PErr (Option Int) :=
  if isNaSentinel s then .ok none
  else (ofOption .intParse (parseInt s)).map some

/-- Nullable float64 field: sentinel to null, otherwise a decimal literal. -/
def parseNaFloat (s : Str) : Except PErr (Option PyFloat) :=
  if isNaSentinel s then .ok none
  else (ofOption .floatParse (parseDec s)).map some

/-- Typing and renaming of one station data line's fields, per the
`station_coltypes_kv` / `station_colnames_kv` / `station_datetypes_kv`
tables: `station_id` read as `str` and zero-filled to width 5, the two date
columns parsed with format `%Y%m%d` as UTC (a parse failure raises), height
as int64, coordinates as float64, name and state as strings. -/
def parseStationFields : List Str → Except PErr StationRow
  | [sid, von, bis, hoehe, lat, lon, nm, land] =>
    match parseYmd von with
    | none => .error .dateParse
    | some ds =>
      match parseYmd bis with
      | none => .error .dateParse
      | some de =>
        match parseNaInt hoehe with
        | .error e => .error e
        | .ok ht =>
          match parseNaFloat lat with
          | .error e => .error e
          | .ok la =>
            match parseNaFloat lon with
            | .error e => .error e
            | .ok lo => .ok ⟨pyZfill 5 sid, ds, de, ht, la, lo, nm, land⟩
  | _ => .error .fieldCount

/-- Embedding of `get_stations_list_from_url` from
`dwdbulk/api/observations.py` on the lines of the fetched table.  The first
line, split on single spaces, supplies the raw column names
(`pd.read_csv(url, sep=" ", nrows=0)`); the fixed-width read then uses
`header=None, names=col_names, skiprows=2`, so the first two physical lines
(the header itself and one separator line) are skipped and every later line
is data.  The model covers tables carrying the standard raw header, whose
columns the rename/dtype tables are keyed by; field extraction of a data
line is modelled by whitespace splitting, which agrees with the fixed-width
read on single-space-separated rows such as the ones in the claims.  Inputs
outside this domain map to a distinguished error. -/
def get_stations_list_from_url (lines : List Str) : Except PErr (List StationRow) :=
  match lines with
  | [] => .error .emptyInput
  | header :: _ =>
    if pySplitOn ' ' header = stationRawHeader then
      (lines.drop 2).mapM (fun line => parseStationFields (pySplitWs line))
    else .error .headerUnsupported

/-- Raw column names of a 10-minute air-temperature measurement file, in file
order: the keys of `measurement_metadata` in `dwdbulk/util.py` plus the
end-of-record marker column `eor`. -/
def measurementRawHeader : List Str :=
  [str "STATIONS_ID", str "MESS_DATUM", str "QN", str "PP_10", str "TT_10",
   str "TM5_10", str "RF_10", str "TD_10", str "eor"]

/-- Measurement record after renaming and typing per `measurement_metadata`:
`station_id` str (zero-filled), `date_start` a UTC timestamp, `QN` int64,
and five nullable float64 parameter columns; the `eor` column is dropped. -/
structure MRow where
  station_id : Str
  date_start : UTCTime
  QN : Int
  PP_10 : Option PyFloat
  TT_10 : Option PyFloat
  TM5_10 : Option PyFloat
  RF_10 : Option PyFloat
  TD_10 : Option PyFloat
deriving DecidableEq, Repr

/-- Python `s.lstrip()` on ASCII whitespace, the `skipinitialspace=True`
treatment of each delimited field. -/
def lstripWs (s : Str) : Str := s.dropWhile isPySpace

/-- Typing and renaming of one measurement data line: fields are the
semicolon-separated pieces with initial whitespace skipped; `MESS_DATUM` is
parsed with format `%Y%m%d%H%M` as UTC (a failure raises), `QN` as int64,
the parameter columns as nullable float64, and `eor` is dropped. -/
def parseMeasurementFields : List Str → Except PErr MRow
  | [sid, dat, qn, pp, tt, tm5, rf, td, _eor] =>
    match parseYmdHm dat with
    | none => .error .dateParse
    | some d =>
      match parseInt qn with
      | none => .error .intParse
      | some q =>
        match parseNaFloat pp with
        | .error e => .error e
        | .ok ppv =>
          match parseNaFloat tt with
          | .error e => .error e
          | .ok ttv =>
            match parseNaFloat tm5 with
            | .error e => .error e
            | .ok tmv =>
              match parseNaFloat rf with
              | .error e => .error e
              | .ok rfv =>
                match parseNaFloat td with
                | .error e => .error e
                | .ok tdv => .ok ⟨pyZfill 5 sid, d, q, ppv, ttv, tmv, rfv, tdv⟩
  | _ => .error .fieldCount

/-- Embedding of `get_measurement_data_from_url` from
`dwdbulk/api/observations.py` on the lines of the fetched file: a semicolon
separated table (`sep=";"`, `skipinitialspace=True`) whose first line is the
raw header; columns are renamed and typed per `measurement_metadata`, the
`eor` marker column dropped, and `station_id` zero-filled to width 5.  The
model covers files carrying the standard raw header, which the dtype/rename
tables are keyed by. -/
def get_measurement_data_from_url (lines : List Str) : Except PErr (List MRow) :=
  match lines with
  | [] => .error .emptyInput
  | header :: body =>
    if pySplitOn ';' header = measurementRawHeader then
      body.mapM (fun line => parseMeasurementFields ((pySplitOn ';' line).map lstripWs))
    else .error .headerUnsupported

/-- One `dwd:Forecast` element of a placemark: the parameter name from the
`dwd:elementName` attribute and the packed text of its value child. -/
structure ForecastSeriesItem where
  elementName : Str
  valueString : Str
deriving DecidableEq, Repr

/-- One `kml:Placemark` element: station name, description, the raw
comma-separated coordinates text, and the parameter series. -/
structure Placemark where
  name : Str
  description : Str
  coordinates : Str
  forecasts : List ForecastSeriesItem
deriving DecidableEq, Repr

/-- Forecast document after XML parsing: document metadata, the shared
timestep texts, and the placemarks in document order.  The shallow embedding
starts from the element tree, the output of the external `lxml` parser. -/
structure ForecastDoc where
  productId : Str
  generatingProcess : Str
  issueTime : Str
  timesteps : List Str
  placemarks : List Placemark
deriving DecidableEq, Repr

/-- Cast of one token of a packed value string, the embedding of
`np.nan if i == "-" else float(i)`: the literal placeholder `"-"` maps to
null, every other token must be a float literal or `float` raises a
`ValueError`. -/
def castToken (t : Str) : Except PErr (Option PyFloat) :=
  if t = str "-" then .ok none
  else
    match parseDec t with
    | some q => .ok (some q)
    | none => .error .valueError

/-- Embedding of one parameter series conversion inside both forecast
parsers (`convert_xml_to_pandas` and `convert_xml_to_parquet`): tokenize the
packed string via `" ".join(s.split()).split(" ")`, cast every token, then
`assert len(measurement_values) == len(timesteps)`; the failed assertion is
the fatal structural error `PErr.assertTimestepMismatch`. -/
def parseSeries (nTimesteps : Nat) (s : Str) : Except PErr (List (Option PyFloat)) :=
  match (pyTokens s).mapM castToken with
  | .error e => .error e
  | .ok vals =>
    if vals.length = nTimesteps then .ok vals
    else .error .assertTimestepMismatch

/-- Membership filter of the source's `(station_ids is None) or station_id
in station_ids` / `parameters is None or measurement_parameter in
parameters` tests. -/
def keepByFilter (filter? : Option (List Str)) (x : Str) : Bool :=
  match filter? with
  | none => true
  | some l => l.contains x

/-- Column assignment `df[name] = vals` on the growing per-station frame:
replace an existing column of that name in place, else append it. -/
def upsertCol (name : Str) (vals : List (Option PyFloat)) (cols : List (Str × List (Option PyFloat))) :
    List (Str × List (Option PyFloat)) :=
  if cols.any (fun c => c.1 = name) then
    cols.map (fun c => if c.1 = name then (name, vals) else c)
  else cols ++ [(name, vals)]

/-- Inner loop of the forecast parser over the `dwd:Forecast` elements of
one placemark: each kept element is parsed by `parseSeries` and assigned as
a column of the growing station frame, in element order; the first raised
exception aborts the loop. -/
def forecastColsLoop (nTimesteps : Nat) (parameters : Option (List Str)) :
    List (Str × List (Option PyFloat)) → List ForecastSeriesItem →
    Except PErr (List (Str × List (Option PyFloat)))
  | acc, [] => .ok acc
  | acc, item :: rest =>
    if keepByFilter parameters item.elementName then
      match parseSeries nTimesteps item.valueString with
      | .error e => .error e
      | .ok vals => forecastColsLoop nTimesteps parameters (upsertCol item.elementName vals acc) rest
    else forecastColsLoop nTimesteps parameters acc rest

/-- Per-station parameter columns built by the forecast parser's inner loop,
starting from the frame that holds only the shared `date_start` column. -/
def processForecastCols (nTimesteps : Nat) (parameters : Option (List Str))
    (items : List ForecastSeriesItem) : Except PErr (List (Str × List (Option PyFloat))) :=
  forecastColsLoop nTimesteps parameters [] items

/-- Per-station output block of the forecast parser: the owning station id
(the placemark's `kml:name` text, attached verbatim by
`df["station_id"] = station_id`) and the parameter columns, each aligned to
the shared timestep sequence. -/
structure StationBlock where
  station_id : Str
  columns : List (Str × List (Option PyFloat))
deriving DecidableEq, Repr

/-- Embedding of `convert_xml_to_pandas(filepath, station_ids, parameters)`
from `src/dwdbulk/api/forecasts.py` (the document-level metadata columns,
identical on every row, are carried by the document itself and omitted from
the block): placemarks passing the station filter are converted in document
order, and the final `pd.concat(df_list)` raises when no placemark passed
the filter. -/
def convert_xml_to_pandas (doc : ForecastDoc)
    (station_ids parameters : Option (List Str)) : Except PErr (List StationBlock) :=
  match (doc.placemarks.filter (fun pm => keepByFilter station_ids pm.name)).mapM
      (fun pm =>
        (processForecastCols doc.timesteps.length parameters pm.forecasts).map
          (fun cols => StationBlock.mk pm.name cols)) with
  | .error e => .error e
  | .ok blocks => if blocks.isEmpty then .error .concatError else .ok blocks

/-- Caller-supplied argument value, embedding the Python dynamic typing that
`get_data`'s `run_checks` block inspects: `None`, a list of station-id
strings, a `pd.Timestamp`, or a value of any other type with the given
truthiness. -/
inductive PyVal
  | pyNone
  | pyList (l : List Str)
  | pyTs (t : UTCTime)
  | pyOther (truthy : Bool)
deriving DecidableEq, Repr

/-- Python truthiness of an argument value (`if station_ids:` etc.):
`None` and the empty list are falsy, a timestamp is truthy. -/
def pyTruthy : PyVal → Bool
  | .pyNone => false
  | .pyList l => ¬ l.isEmpty
  | .pyTs _ => true
  | .pyOther b => b

/-- Network requests of one `get_data` call, in the order issued.  The
recursive listing walks of `get_measurement_parameters`, `get_stations` and
`get_measurement_data_urls` are each collapsed into one event; a
`dataFile` event is one measurement-file download. -/
inductive NetReq
  | paramIndex
  | stationList
  | gatherUrls
  | dataFile (url : Str)
deriving DecidableEq, Repr

/-- Exceptions of the embedded `get_data`: one constructor per `raise` site.
An unknown parameter name raises a `NameError`, because the assertion's
message f-string names the undefined variable `measurement_parameter`; the
other argument checks raise `AssertionError`s; `typeError` stands for the
`TypeError` Python raises when a non-timestamp argument reaches a timestamp
comparison in the fetch phase; `concatError` is the `ValueError` of
`pd.concat([])`. -/
inductive GdErr
  | assertResolution
  | nameErrorUnknownParameter
  | assertStationIdsType
  | assertMissingStations
  | assertDateStartType
  | assertDateEndType
  | typeError
  | concatError
deriving DecidableEq, Repr

/-- Remote state observed by one `get_data` call: the parameter names listed
under the chosen resolution, the station ids of the authoritative station
list, the gathered candidate resource urls, and the parsed content of each
measurement file. -/
structure Env where
  availableParams : List Str
  availableStations : List Str
  gatheredUrls : List Str
  fetch : Str → List MRow

/-- Test for `isinstance(x, pd.Timestamp)`. -/
def isTs : PyVal → Bool
  | .pyTs _ => true
  | _ => false

/-- Date-filter checks of the `run_checks` block (continued): a truthy
non-timestamp `date_start` or `date_end` fails its `isinstance` assertion;
falsy values of any type skip the check entirely. -/
def dateTypeChecks (reqs : List NetReq) (date_start date_end : PyVal) :
    List NetReq × Option GdErr :=
  if pyTruthy date_start ∧ ¬ isTs date_start then
    (reqs, some .assertDateStartType)
  else if pyTruthy date_end ∧ ¬ isTs date_end then
    (reqs, some .assertDateEndType)
  else (reqs, none)

/-- Embedding of the `run_checks` block of `get_data` in
`dwdbulk/api/observations.py`, returning the network requests issued during
checking and the check failure, if any.  The resolution assertion comes
first and needs no network; the parameter-name assertion compares against
`get_measurement_parameters(resolution)`, which itself fetches the parameter
index; a truthy `station_ids` is first type-checked and then compared
against `get_stations(...)`, which fetches the station list; the date
arguments are type-checked last. -/
def getDataChecks (env : Env) (parameter : Str)
    (station_ids date_start date_end : PyVal) (resolution : Str) :
    List NetReq × Option GdErr :=
  if resolution ≠ str "10_minutes" then ([], some .assertResolution)
  else if ¬ env.availableParams.contains parameter then
    ([.paramIndex], some .nameErrorUnknownParameter)
  else if pyTruthy station_ids then
    match station_ids with
    | .pyList ids =>
      if ids.any (fun sid => ¬ env.availableStations.contains sid) then
        ([.paramIndex, .stationList], some .assertMissingStations)
      else dateTypeChecks [.paramIndex, .stationList] date_start date_end
    | _ => ([.paramIndex], some .assertStationIdsType)
  else dateTypeChecks [.paramIndex] date_start date_end

/-- Station-id url filter of the fetch phase: with a truthy `station_ids`,
keep the urls containing `_{station_id}_` for some requested id.  Iterating
a truthy non-list raises a `TypeError`. -/
def urlStationFilter (station_ids : PyVal) (urls : List Str) :
    Except GdErr (List Str) :=
  if pyTruthy station_ids then
    match station_ids with
    | .pyList ids =>
      .ok (urls.filter (fun u => ids.any (fun sid => isSubstr (['_'] ++ sid ++ ['_']) u)))
    | _ => .error .typeError
  else .ok urls

/-- Start-date url selection of the fetch phase: with a truthy `date_start`
later than `recentCutoff` — the caller-computed `pd.Timestamp.today(tz=
"UTC") - pd.Timedelta("500 days")` — only `_akt.zip` / `_now.zip` resources
are kept.  Comparing a truthy non-timestamp raises a `TypeError`. -/
def urlStartFilter (date_start : PyVal) (recentCutoff : UTCTime) (urls : List Str) :
    Except GdErr (List Str) :=
  if pyTruthy date_start then
    match date_start with
    | .pyTs t =>
      .ok (if utcLt recentCutoff t then
        urls.filter (fun u => isSubstr (str "_akt.zip") u ∨ isSubstr (str "_now.zip") u)
      else urls)
    | _ => .error .typeError
  else .ok urls

/-- End-date url selection of the fetch phase: with a truthy `date_end`
whose year lies strictly before `nowYear` — the caller-computed
`pd.Timestamp.now(tz="UTC").year` — the `_akt.zip` / `_now.zip` resources
are excluded.  Reading `.year` off a truthy non-timestamp raises. -/
def urlEndFilter (date_end : PyVal) (nowYear : Nat) (urls : List Str) :
    Except GdErr (List Str) :=
  if pyTruthy date_end then
    match date_end with
    | .pyTs t =>
      .ok (if t.year < nowYear then
        urls.filter (fun u => ¬ isSubstr (str "_akt.zip") u ∧ ¬ isSubstr (str "_now.zip") u)
      else urls)
    | _ => .error .typeError
  else .ok urls

/-- Combined time-window url selection of the fetch phase, in source order:
start-date restriction, then end-date exclusion. -/
def urlDateFilters (date_start date_end : PyVal)
    (recentCutoff : UTCTime) (nowYear : Nat) (urls : List Str) :
    Except GdErr (List Str) :=
  match urlStartFilter date_start recentCutoff urls with
  | .error e => .error e
  | .ok urls1 => urlEndFilter date_end nowYear urls1

/-- Candidate resource urls left after the station-id and time-window
filters of `get_data`. -/
def filteredUrls (env : Env) (station_ids date_start date_end : PyVal)
    (recentCutoff : UTCTime) (nowYear : Nat) : Except GdErr (List Str) :=
  match urlStationFilter station_ids env.gatheredUrls with
  | .error e => .error e
  | .ok urls1 => urlDateFilters date_start date_end recentCutoff nowYear urls1

/-- Row filter `df.loc[df.date_start >= date_start]` on one file's rows: a
truthy start bound keeps rows at or after it (inclusive); a truthy
non-timestamp bound raises a `TypeError` at the comparison. -/
def rowStartFilter (date_start : PyVal) (df : List MRow) : Except GdErr (List MRow) :=
  if pyTruthy date_start then
    match date_start with
    | .pyTs t => .ok (df.filter (fun r => utcLe t r.date_start))
    | _ => .error .typeError
  else .ok df

/-- Row filter `df.loc[df.date_start < date_end]` on one file's rows: a
truthy end bound keeps rows strictly before it (exclusive). -/
def rowEndFilter (date_end : PyVal) (df : List MRow) : Except GdErr (List MRow) :=
  if pyTruthy date_end then
    match date_end with
    | .pyTs t => .ok (df.filter (fun r => utcLt r.date_start t))
    | _ => .error .typeError
  else .ok df

/-- Per-file date-range row filter of the fetch loop, in source order: rows
before the (inclusive) start bound and at or after the (exclusive) end
bound are dropped. -/
def applyDateRowFilters (date_start date_end : PyVal) (df : List MRow) :
    Except GdErr (List MRow) :=
  match rowStartFilter date_start df with
  | .error e => .error e
  | .ok df1 => rowEndFilter date_end df1

/-- Download-and-parse loop of `get_data`: one `dataFile` request per
remaining url, each file's rows date-filtered; an exception mid-loop stops
the loop with the requests issued so far. -/
def fetchLoop (env : Env) (date_start date_end : PyVal) :
    List Str → List NetReq × Except GdErr (List (List MRow))
  | [] => ([], .ok [])
  | u :: us =>
    match applyDateRowFilters date_start date_end (env.fetch u) with
    | .error e => ([.dataFile u], .error e)
    | .ok df =>
      let (rs, res) := fetchLoop env date_start date_end us
      (.dataFile u :: rs,
       match res with
       | .error e => .error e
       | .ok dfs => .ok (df :: dfs))

/-- Stable insertion of an element into a sorted list, placing it before the
first element it compares less-or-equal to. -/
def insertSorted (le : α → α → Bool) (x : α) : List α → List α
  | [] => [x]
  | y :: ys => if le x y then x :: y :: ys else y :: insertSorted le x ys

/-- Stable sort by a boolean comparison (`df.sort_values`). -/
def sortBy (le : α → α → Bool) (l : List α) : List α :=
  l.foldr (insertSorted le) []

/-- Row comparison of `df.sort_values(["station_id", "date_start", "QN"])`. -/
def mrowLe (a b : MRow) : Bool :=
  if a.station_id ≠ b.station_id then strLe a.station_id b.station_id
  else if a.date_start ≠ b.date_start then utcLe a.date_start b.date_start
  else a.QN ≤ b.QN

/-- Embedding of `df.drop_duplicates(subset, keep="last")`: a row is kept
exactly when no later row has the same key. -/
def dropDupKeepLast (key : α → κ) [DecidableEq κ] : List α → List α
  | [] => []
  | r :: rs =>
    if rs.any (fun r2 => key r2 = key r) then dropDupKeepLast key rs
    else r :: dropDupKeepLast key rs

/-- Deduplication tail of `get_data` (`dwdbulk/api/observations.py`, lines
237-241) exactly as written: sort by `["station_id", "date_start", "QN"]`,
then `drop_duplicates(subset=["station_id", "date_start", "QN"],
keep="last")` — note that the dropped-duplicate subset includes `QN`. -/
def getDataDedup (rows : List MRow) : List MRow :=
  dropDupKeepLast (fun r => (r.station_id, r.date_start, r.QN)) (sortBy mrowLe rows)

/-- Embedding of `get_data(parameter, station_ids, date_start, date_end,
resolution, run_checks)` from `dwdbulk/api/observations.py`: the optional
`run_checks` block, then url gathering and filtering, the download loop, the
`pd.concat` of the collected frames — which raises when the filters left no
candidate url — and the final deduplication.  Returns the issued network
requests alongside the result. -/
def get_data (env : Env) (parameter : Str)
    (station_ids date_start date_end : PyVal) (resolution : Str)
    (run_checks : Bool) (recentCutoff : UTCTime) (nowYear : Nat) :
    List NetReq × Except GdErr (List MRow) :=
  let checks :=
    if run_checks then
      getDataChecks env parameter station_ids date_start date_end resolution
    else ([], none)
  match checks with
  | (reqs, some e) => (reqs, .error e)
  | (reqs, none) =>
    match filteredUrls env station_ids date_start date_end recentCutoff nowYear with
    | .error e => (reqs ++ [.gatherUrls], .error e)
    | .ok urls =>
      let (loopReqs, res) := fetchLoop env date_start date_end urls
      (reqs ++ .gatherUrls :: loopReqs,
       match res with
       | .error e => .error e
       | .ok dfs =>
         if urls.isEmpty then .error .concatError
         else .ok (getDataDedup dfs.flatten))

/-- Concrete forecast document used to exercise the forecast parser: one
placemark named `ABC` with a single one-value parameter series against one
timestep. -/
def docABC : ForecastDoc :=
  ⟨str "MOSMIX_S", str "p", str "2020-01-01T00:00:00Z",
   [str "2020-01-01T01:00:00Z"],
   [⟨str "ABC", str "d", str "8.0,50.0,100.0", [⟨str "TTT", str "1.0"⟩]⟩]⟩

/-- Standard header line of a DWD station description table. -/
def c8Header : Str :=
  str "Stations_id von_datum bis_datum Stationshoehe geoBreite geoLaenge Stationsname Bundesland"

/-- Separator/legend line of a DWD station description table. -/
def c8Sep : Str :=
  str "----------- --------- --------- ------------- --------- --------- ------------ ----------"

/-- Data row of the station-parse scenario. -/
def c8DataRow : Str :=
  str "00001 19370101 19860630 478 47.8413 8.8493 Aach Nordrhein-Westfalen"

/-- Per-event href collection actually performed by `handle_starttag` (the
parent-directory link already excluded), used to state the resolver's
declarative characterization. -/
def anchorHrefs (ev : HtmlTag) : List Str :=
  if ev.tag = str "a" then
    ev.attrs.filterMap
      (fun kv => if kv.1 = str "href" ∧ kv.2 ≠ str "../" then some kv.2 else none)
  else []

theorem pySplitAux_nosep (p : Char → Bool) (t s : Str) (h : ∀ c ∈ t, p c = false) :
    pySplitAux p (t ++ s) = (t ++ (pySplitAux p s).1, (pySplitAux p s).2) := by
  induction t with
  | nil => simp
  | cons c cs ih =>
    have hc : p c = false := h c (by simp)
    have ih' := ih (fun c hc => h c (by simp [hc]))
    simp [pySplitAux, ih', hc]

theorem pySplitAux_sep (p : Char → Bool) (c : Char) (s : Str) (h : p c = true) :
    pySplitAux p (c :: s) = ([], (pySplitAux p s).1 :: (pySplitAux p s).2) := by
  simp [pySplitAux, h]

theorem pySplitOn_joinWith (l : List Str) (hne : l ≠ [])
    (h : ∀ t ∈ l, ∀ c ∈ t, ¬ c = ' ') :
    pySplitOn ' ' (joinWith [' '] l) = l := by
  induction l with
  | nil => exact absurd rfl hne
  | cons t ts ih =>
    have ht : ∀ c ∈ t, (fun c => decide (c = ' ')) c = false := by
      intro c hc
      simpa using h t (by simp) c hc
    cases ts with
    | nil =>
      show pySplitAny (fun c => decide (c = ' ')) (joinWith [' '] [t]) = [t]
      have : joinWith [' '] [t] = t ++ [] := by simp [joinWith]
      rw [pySplitAny, this, pySplitAux_nosep _ _ _ ht]
      simp [pySplitAux]
    | cons t2 ts2 =>
      have hrec := ih (by simp) (fun u hu c hc => h u (by simp [hu]) c hc)
      have hjoin : joinWith [' '] (t :: t2 :: ts2) = t ++ (' ' :: joinWith [' '] (t2 :: ts2)) := by
        simp [joinWith]
      show pySplitAny (fun c => decide (c = ' ')) _ = _
      rw [pySplitAny, hjoin, pySplitAux_nosep _ _ _ ht,
        pySplitAux_sep _ _ _ (by simp)]
      simpa [pySplitAny, pySplitOn] using hrec

theorem pySplitAux_chars (p : Char → Bool) (s : Str) :
    (∀ c ∈ (pySplitAux p s).1, p c = false) ∧
    (∀ t ∈ (pySplitAux p s).2, ∀ c ∈ t, p c = false) := by
  induction s with
  | nil => simp [pySplitAux]
  | cons c cs ih =>
    by_cases hc : p c = true
    · rw [pySplitAux_sep _ _ _ hc]
      refine ⟨by simp, ?_⟩
      intro t ht
      rcases List.mem_cons.mp ht with h1 | h2
      · exact h1 ▸ ih.1
      · exact ih.2 t h2
    · have hc' : p c = false := by
        cases hpc : p c
        · rfl
        · exact absurd hpc hc
      simp only [pySplitAux, hc']
      refine ⟨?_, ?_⟩
      · intro d hd
        simp only [Bool.false_eq_true, if_false, List.mem_cons] at hd
        rcases hd with rfl | hd
        · exact hc'
        · exact ih.1 d hd
      · intro t ht
        simp only [Bool.false_eq_true, if_false] at ht
        exact ih.2 t ht

theorem pySplitWs_tokens (s : Str) :
    ∀ t ∈ pySplitWs s, ¬ t.isEmpty ∧ ∀ c ∈ t, isPySpace c = false := by
  intro t ht
  have hmem := List.mem_filter.mp ht
  have hchars := pySplitAux_chars isPySpace s
  constructor
  · simpa using hmem.2
  · intro c hc
    rcases List.mem_cons.mp hmem.1 with h1 | h2
    · rw [h1] at hc
      exact hchars.1 c hc
    · exact hchars.2 t h2 c hc

/-- Normalization characterization of the forecast tokenizer: on a string
with at least one whitespace-separated token, the code's
`" ".join(s.split()).split(" ")` round-trip returns exactly the
whitespace-split tokens; on an all-whitespace string it returns the single
empty token that Python's `"".split(" ")` produces. -/
theorem pyTokens_eq (s : Str) :
    pyTokens s = if pySplitWs s = [] then [[]] else pySplitWs s := by
  by_cases h : pySplitWs s = []
  · simp [pyTokens, h, joinWith, pySplitOn, pySplitAny, pySplitAux]
  · rw [if_neg h]
    refine pySplitOn_joinWith _ h ?_
    intro t ht c hc hsp
    have := (pySplitWs_tokens s t ht).2 c hc
    rw [hsp] at this
    simp [isPySpace] at this

theorem except_map_ok {g : α → β} {x : Except PErr α} {b : β}
    (h : Except.map g x = .ok b) : ∃ a, x = .ok a ∧ b = g a := by
  cases x with
  | error e => simp [Except.map] at h
  | ok a => exact ⟨a, rfl, by simpa [Except.map] using h.symm⟩

theorem except_mapM_ok_mem {f : α → Except PErr β} {l : List α} {ys : List β}
    (h : l.mapM f = .ok ys) : ∀ y ∈ ys, ∃ x, x ∈ l ∧ f x = .ok y := by
  induction l generalizing ys with
  | nil =>
    simp only [List.mapM_nil, pure, Except.pure] at h
    cases h
    simp
  | cons a as ih =>
    rw [List.mapM_cons] at h
    cases hfa : f a with
    | error e => rw [hfa] at h; simp [Bind.bind, Except.bind, pure, Except.pure] at h
    | ok b =>
      rw [hfa] at h
      cases hrest : as.mapM f with
      | error e => rw [hrest] at h; simp [Bind.bind, Except.bind, pure, Except.pure] at h
      | ok bs =>
        rw [hrest] at h
        simp only [Bind.bind, Except.bind, pure, Except.pure, Except.ok.injEq] at h
        subst h
        intro y hy
        rcases List.mem_cons.mp hy with rfl | hy2
        · exact ⟨a, by simp, hfa⟩
        · rcases ih hrest y hy2 with ⟨x, hx, hfx⟩
          exact ⟨x, by simp [hx], hfx⟩

theorem parseSeries_ok_length {n : Nat} {s : Str} {vals : List (Option PyFloat)}
    (h : parseSeries n s = .ok vals) : vals.length = n := by
  unfold parseSeries at h
  split at h
  · cases h
  · split at h
    · cases h
      assumption
    · cases h

theorem upsertCol_lengths {n : Nat} {name : Str} {vals : List (Option PyFloat)}
    {cols : List (Str × List (Option PyFloat))}
    (hv : vals.length = n) (hc : ∀ c ∈ cols, c.2.length = n) :
    ∀ c ∈ upsertCol name vals cols, c.2.length = n := by
  intro c hmem
  unfold upsertCol at hmem
  by_cases hex : cols.any (fun c => c.1 = name)
  · rw [if_pos hex] at hmem
    rcases List.mem_map.mp hmem with ⟨c0, hc0, heq⟩
    by_cases h0 : c0.1 = name
    · rw [if_pos h0] at heq
      rw [← heq]
      exact hv
    · rw [if_neg h0] at heq
      rw [← heq]
      exact hc c0 hc0
  · rw [if_neg hex] at hmem
    rcases List.mem_append.mp hmem with h1 | h2
    · exact hc c h1
    · rcases List.mem_singleton.mp h2 with rfl
      exact hv

theorem forecastColsLoop_lengths {n : Nat} {ps : Option (List Str)}
    {items : List ForecastSeriesItem} {acc cols : List (Str × List (Option PyFloat))}
    (hacc : ∀ c ∈ acc, c.2.length = n)
    (h : forecastColsLoop n ps acc items = .ok cols) :
    ∀ c ∈ cols, c.2.length = n := by
  induction items generalizing acc with
  | nil =>
    unfold forecastColsLoop at h
    cases h
    exact hacc
  | cons item rest ih =>
    unfold forecastColsLoop at h
    by_cases hk : keepByFilter ps item.elementName
    · rw [if_pos hk] at h
      cases hp : parseSeries n item.valueString with
      | error e => rw [hp] at h; cases h
      | ok vals =>
        rw [hp] at h
        exact ih (upsertCol_lengths (parseSeries_ok_length hp) hacc) h
    · rw [if_neg hk] at h
      exact ih hacc h

theorem convert_ok_blocks {doc : ForecastDoc} {sids ps : Option (List Str)}
    {blocks : List StationBlock}
    (h : convert_xml_to_pandas doc sids ps = .ok blocks) :
    ∀ b ∈ blocks, ∃ pm, pm ∈ doc.placemarks ∧ b.station_id = pm.name ∧
      processForecastCols doc.timesteps.length ps pm.forecasts = .ok b.columns := by
  unfold convert_xml_to_pandas at h
  split at h
  · cases h
  · rename_i bs hm
    split at h
    · cases h
    · cases h
      intro b hb
      rcases except_mapM_ok_mem hm b hb with ⟨pm, hpm, hok⟩
      rcases except_map_ok hok with ⟨cols, hcols, hbeq⟩
      refine ⟨pm, List.mem_of_mem_filter hpm, ?_, ?_⟩
      · rw [hbeq]
      · rw [hbeq]
        exact hcols

/-- C1: the deduplication tail of `get_data` is claimed to keep exactly one
row — the highest-`QN` one — per (`station_id`, `date_start`) group.  The
code's `drop_duplicates` subset however includes `QN` itself, so two rows of
the same station and timestamp with `QN` 1 and `QN` 3 are both kept: on that
very input the deduplicated output has two rows, not one.  This contradicts
the source's own comment ("Keep Row with Highest QN") and its test
(`test_observations_get_data_all` asserts no duplicates on `station_id`,
`date_start`), so the claim describes the intent and the code is the slip. -/
theorem c1_dedup_keeps_both_qn_rows :
    getDataDedup
      [⟨str "00001", ⟨2020, 1, 1, 0, 0⟩, 1, some ⟨1, 0⟩, none, none, none, none⟩,
       ⟨str "00001", ⟨2020, 1, 1, 0, 0⟩, 3, some ⟨2, 0⟩, none, none, none, none⟩] =
      [⟨str "00001", ⟨2020, 1, 1, 0, 0⟩, 1, some ⟨1, 0⟩, none, none, none, none⟩,
       ⟨str "00001", ⟨2020, 1, 1, 0, 0⟩, 3, some ⟨2, 0⟩, none, none, none, none⟩] ∧
    (getDataDedup
      [⟨str "00001", ⟨2020, 1, 1, 0, 0⟩, 1, some ⟨1, 0⟩, none, none, none, none⟩,
       ⟨str "00001", ⟨2020, 1, 1, 0, 0⟩, 3, some ⟨2, 0⟩, none, none, none, none⟩]).length = 2 := by
  constructor
  · rfl
  · rfl

/-- C2: a forecast parameter series parses successfully only when its token
count equals the timestep count (first conjunct: every successful parse has
exactly that many values, never truncated or padded); with castable tokens,
a count mismatch raises the fatal assertion (second conjunct); and every
column of every station block a successful document conversion emits is
aligned to the shared timestep sequence (third conjunct). -/
theorem c2_timestep_alignment :
    (∀ (n : Nat) (s : Str) (vals : List (Option PyFloat)),
      parseSeries n s = .ok vals → vals.length = n)
    ∧ (∀ (n : Nat) (s : Str) (vals : List (Option PyFloat)),
      (pyTokens s).mapM castToken = .ok vals → vals.length ≠ n →
      parseSeries n s = .error .assertTimestepMismatch)
    ∧ (∀ (doc : ForecastDoc) (sids ps : Option (List Str)) (blocks : List StationBlock),
      convert_xml_to_pandas doc sids ps = .ok blocks →
      ∀ b ∈ blocks, ∀ c ∈ b.columns, c.2.length = doc.timesteps.length) := by
  refine ⟨fun n s vals h => parseSeries_ok_length h, ?_, ?_⟩
  · intro n s vals hm hne
    unfold parseSeries
    rw [hm]
    simp [hne]
  · intro doc sids ps blocks h b hb c hc
    rcases convert_ok_blocks h b hb with ⟨pm, _, _, hcols⟩
    exact forecastColsLoop_lengths (by simp) hcols c hc

/-- Witness for C2: a one-token series against three timesteps raises the
assertion, via the second conjunct of the theorem at a concrete input. -/
theorem c2_timestep_alignment_witness :
    parseSeries 3 (str "1.0") = .error .assertTimestepMismatch :=
  c2_timestep_alignment.2.1 3 (str "1.0") [some ⟨10, 1⟩] (by rfl) (by decide)

/-- C7: the forecast value-string parser collapses whitespace runs, trims the
ends and splits into the whitespace-separated tokens (first conjunct: the
code's `" ".join(s.split()).split(" ")` round-trip equals the
whitespace-split token list whenever at least one token exists), maps the
literal placeholder `"-"` to null (second conjunct), and on the scenario
string `"12.3 - 14.0"` against 3 timesteps yields `[12.3, null, 14.0]`
(third conjunct). -/
theorem c7_forecast_value_parsing :
    (∀ s : Str, pyTokens s = if pySplitWs s = [] then [[]] else pySplitWs s)
    ∧ castToken (str "-") = .ok none
    ∧ parseSeries 3 (str "12.3 - 14.0") =
        .ok [some ⟨123, 1⟩, none, some ⟨140, 1⟩] := by
  refine ⟨pyTokens_eq, by rfl, by rfl⟩

theorem pyZfill_length (w : Nat) (s : Str) :
    (pyZfill w s).length = max w s.length := by
  cases s with
  | nil => simp [pyZfill]
  | cons c rest =>
    simp only [pyZfill]
    by_cases h : c = '+' ∨ c = '-'
    · rw [if_pos h]
      simp only [List.length_cons, List.length_append, List.length_replicate]
      omega
    · rw [if_neg h]
      simp only [List.length_append, List.length_replicate, List.length_cons]
      omega

theorem pyZfill_no_sign (w : Nat) (s : Str)
    (h1 : s.head? ≠ some '+') (h2 : s.head? ≠ some '-') :
    pyZfill w s = List.replicate (w - s.length) '0' ++ s := by
  cases s with
  | nil => simp [pyZfill]
  | cons c rest =>
    have hc1 : c ≠ '+' := fun hc => h1 (by simp [hc])
    have hc2 : c ≠ '-' := fun hc => h2 (by simp [hc])
    simp only [pyZfill]
    rw [if_neg (by tauto)]

theorem parseStationFields_ok {fs : List Str} {r : StationRow}
    (h : parseStationFields fs = .ok r) :
    ∃ raw, r.station_id = pyZfill 5 raw := by
  unfold parseStationFields at h
  split at h
  · iterate 5 (split at h <;> try cases h)
    exact ⟨_, rfl⟩
  · cases h

theorem parseMeasurementFields_ok {fs : List Str} {r : MRow}
    (h : parseMeasurementFields fs = .ok r) :
    ∃ raw, r.station_id = pyZfill 5 raw := by
  unfold parseMeasurementFields at h
  split at h
  · iterate 7 (split at h <;> try cases h)
    exact ⟨_, rfl⟩
  · cases h

theorem stations_station_id_shape {lines : List Str} {rows : List StationRow}
    (h : get_stations_list_from_url lines = .ok rows) :
    ∀ r ∈ rows, ∃ raw, r.station_id = pyZfill 5 raw := by
  unfold get_stations_list_from_url at h
  split at h
  · cases h
  · split at h
    · intro r hr
      rcases except_mapM_ok_mem h r hr with ⟨line, _, hok⟩
      exact parseStationFields_ok hok
    · cases h

theorem measurements_station_id_shape {lines : List Str} {rows : List MRow}
    (h : get_measurement_data_from_url lines = .ok rows) :
    ∀ r ∈ rows, ∃ raw, r.station_id = pyZfill 5 raw := by
  unfold get_measurement_data_from_url at h
  split at h
  · cases h
  · split at h
    · intro r hr
      rcases except_mapM_ok_mem h r hr with ⟨line, _, hok⟩
      exact parseMeasurementFields_ok hok
    · cases h

/-- C3: the claimed invariant — every `station_id` emitted by any of the
three parsers has length exactly 5 and is left-zero-padded — fails on the
forecast parser, which attaches the placemark's `kml:name` text verbatim: a
document whose placemark is named `ABC` converts successfully and emits the
three-character station id `ABC`. -/
theorem c3_zero_padding_counterexample :
    convert_xml_to_pandas docABC none none =
      .ok [⟨str "ABC", [(str "TTT", [some ⟨10, 1⟩])]⟩] ∧
    (str "ABC").length ≠ 5 := by
  constructor
  · rfl
  · decide

/-- C3 (amended): the station-table and measurement-table parsers zero-fill
every emitted `station_id` to width 5 — `zfill` pads an unsigned id of
length at most 5 to exactly 5 characters with leading `0`s and leaves longer
ids unchanged (first two conjuncts; third and fourth conjuncts: every row
those parsers emit carries a `zfill`ed id) — while the forecast parser emits
the placemark name unchanged, with no padding (last conjunct). -/
theorem c3_zero_padding_amended :
    (∀ s : Str, (pyZfill 5 s).length = max 5 s.length)
    ∧ (∀ s : Str, s.head? ≠ some '+' → s.head? ≠ some '-' →
        pyZfill 5 s = List.replicate (5 - s.length) '0' ++ s)
    ∧ (∀ (lines : List Str) (rows : List StationRow),
        get_stations_list_from_url lines = .ok rows →
        ∀ r ∈ rows, ∃ raw, r.station_id = pyZfill 5 raw)
    ∧ (∀ (lines : List Str) (rows : List MRow),
        get_measurement_data_from_url lines = .ok rows →
        ∀ r ∈ rows, ∃ raw, r.station_id = pyZfill 5 raw)
    ∧ (∀ (doc : ForecastDoc) (sids ps : Option (List Str)) (blocks : List StationBlock),
        convert_xml_to_pandas doc sids ps = .ok blocks →
        ∀ b ∈ blocks, ∃ pm, pm ∈ doc.placemarks ∧ b.station_id = pm.name) := by
  refine ⟨pyZfill_length 5, pyZfill_no_sign 5, ?_, ?_, ?_⟩
  · exact fun lines rows h => stations_station_id_shape h
  · exact fun lines rows h => measurements_station_id_shape h
  · intro doc sids ps blocks h b hb
    rcases convert_ok_blocks h b hb with ⟨pm, hpm, hname, _⟩
    exact ⟨pm, hpm, hname⟩

/-- Witness for the amended C3: the three-character raw id `123` is padded
to the five-character `00123`, via the second conjunct at a concrete input. -/
theorem c3_zero_padding_amended_witness :
    pyZfill 5 (str "123") = List.replicate (5 - (str "123").length) '0' ++ str "123" :=
  c3_zero_padding_amended.2.1 (str "123") (by decide) (by decide)

theorem digitVal_digitChar {d : Nat} (h : d < 10) :
    digitVal (digitChar d) = some d := by
  interval_cases d <;> decide

theorem twoDigits_render2 {n : Nat} (h : n ≤ 99) :
    twoDigits (digitChar (n / 10)) (digitChar (n % 10)) = some n := by
  have h1 : n / 10 < 10 := by omega
  have h2 : n % 10 < 10 := Nat.mod_lt _ (by omega)
  unfold twoDigits
  rw [digitVal_digitChar h1, digitVal_digitChar h2]
  show some (10 * (n / 10) + n % 10) = some n
  exact congrArg some (by omega)

/-- C5: the Y2K-safe legacy timestamp parser maps every two-digit year token
through the Unix-epoch pivot — `00`-`68` to 2000-2068 and `69`-`99` to the
twentieth century (first conjunct, over every calendar-valid rendered
`YYMMDDHHMM` string) — with token `68` yielding 2068 and token `69` yielding
1969 (second and third conjuncts), and a string that stays unparseable after
pivoting (here `990229...`, February 29 of the non-leap 1999) yields a null
timestamp instead of raising (fourth conjunct: the parser is a total
function into `Option`). -/
theorem c5_y2k_pivot :
    (∀ yy mo d h mi : Nat, yy ≤ 99 →
      validTime (pivotYear yy) mo d h mi = true →
      y2k_date_parse
        (render2 yy ++ render2 mo ++ render2 d ++ render2 h ++ render2 mi) =
        some ⟨pivotYear yy, mo, d, h, mi⟩)
    ∧ y2k_date_parse (str "6812312359") = some ⟨2068, 12, 31, 23, 59⟩
    ∧ y2k_date_parse (str "6901010000") = some ⟨1969, 1, 1, 0, 0⟩
    ∧ y2k_date_parse (str "9902290000") = none := by
  refine ⟨?_, by rfl, by rfl, by rfl⟩
  intro yy mo d h mi hyy hvalid
  have hbounds : mo ≤ 12 ∧ d ≤ 31 ∧ h ≤ 23 ∧ mi ≤ 59 := by
    have hd : daysInMonth (pivotYear yy) mo ≤ 31 := by
      unfold daysInMonth
      split
      · split <;> omega
      · split <;> omega
    simp only [validTime, Bool.and_eq_true, decide_eq_true_eq] at hvalid
    omega
  have hren : render2 yy ++ render2 mo ++ render2 d ++ render2 h ++ render2 mi =
      [digitChar (yy / 10), digitChar (yy % 10), digitChar (mo / 10), digitChar (mo % 10),
       digitChar (d / 10), digitChar (d % 10), digitChar (h / 10), digitChar (h % 10),
       digitChar (mi / 10), digitChar (mi % 10)] := by
    simp [render2]
  rw [hren]
  simp only [y2k_date_parse, twoDigits_render2 hyy,
    twoDigits_render2 (show mo ≤ 99 by omega), twoDigits_render2 (show d ≤ 99 by omega),
    twoDigits_render2 (show h ≤ 99 by omega), twoDigits_render2 (show mi ≤ 99 by omega),
    hvalid, if_true]

/-- Witness for C5: year token `05` with a valid calendar combination parses
to the pivoted year 2005, via the first conjunct at a concrete input. -/
theorem c5_y2k_pivot_witness :
    y2k_date_parse (render2 5 ++ render2 6 ++ render2 15 ++ render2 12 ++ render2 30) =
      some ⟨pivotYear 5, 6, 15, 12, 30⟩ :=
  c5_y2k_pivot.1 5 6 15 12 30 (by decide) (by decide)

/-- C8: the claim describes the station-table layout as a header line
followed by two separator/legend lines that are skipped before the data.
The parser however reads the column names from the first line and then skips
exactly two physical lines — the header itself and one separator — so on the
claimed four-line input (header, two separators, one data row) the second
separator line is parsed as data and its pseudo-date column raises a parse
error: the call fails instead of returning the single claimed record. -/
theorem c8_station_parse_counterexample :
    get_stations_list_from_url [c8Header, c8Sep, c8Sep, c8DataRow] =
      .error .dateParse := by
  rfl

/-- C8 (amended): with the header followed by a single separator line — the
two physical lines the parser skips unconditionally — the data row
`00001 19370101 19860630 478 47.8413 8.8493 Aach Nordrhein-Westfalen`
yields exactly one `Station` record with `station_id="00001"`,
`date_start=1937-01-01T00:00:00Z`, `date_end=1986-06-30T00:00:00Z` and
`state="Nordrhein-Westfalen"`. -/
theorem c8_station_parse_amended :
    get_stations_list_from_url [c8Header, c8Sep, c8DataRow] =
      .ok [⟨str "00001", ⟨1937, 1, 1, 0, 0⟩, ⟨1986, 6, 30, 0, 0⟩,
            some 478, some ⟨478413, 4⟩, some ⟨88493, 4⟩,
            str "Aach", str "Nordrhein-Westfalen"⟩] := by
  rfl

/-- C4: the claim states that every HTTP request of the pipeline — listing
resolution and archive download alike — turns a non-2xx response into a
fatal error propagated to the caller.  The archive download
`fetch_raw_forecast_xml` however only acts on status 200 and otherwise falls
off the end of the function: on a 404 response it returns `None` silently,
raising nothing. -/
theorem c4_fetch_error_counterexample :
    fetch_raw_forecast_xml (str "https://opendata.dwd.de/mosmix/f.kmz")
      (str "forecast_xml") ⟨404, [], [str "forecast.kml"]⟩ = .ok none := by
  rfl

/-- C4 (amended): for directory-listing resolution, a non-200 response is a
fatal error carrying the URI and propagated to the immediate caller with no
partial result (first conjunct), and a 200 response returns the parsed link
list (third conjunct); the forecast-archive download, by contrast, silently
returns `None` on every non-200 response instead of raising (second
conjunct). -/
theorem c4_fetch_error_amended :
    (∀ (url : Str) (resp : HttpResponse) (ext : Str) (fu : Bool),
      resp.status ≠ 200 →
      get_resource_index url resp ext fu = .error (.fetchFailed url))
    ∧ (∀ (url dir : Str) (resp : HttpResponse),
      resp.status ≠ 200 →
      fetch_raw_forecast_xml url dir resp = .ok none)
    ∧ (∀ (url : Str) (resp : HttpResponse) (ext : Str) (fu : Bool),
      resp.status = 200 →
      get_resource_index url resp ext fu =
        .ok (parse_htmllist url resp.events ext fu)) := by
  refine ⟨?_, ?_, ?_⟩
  · intro url resp ext fu h
    unfold get_resource_index
    rw [if_pos h]
  · intro url dir resp h
    unfold fetch_raw_forecast_xml
    rw [if_neg h]
  · intro url resp ext fu h
    unfold get_resource_index
    rw [if_neg (by simp [h])]

/-- Witness for the amended C4: a 404 on a directory listing raises the
fetch error naming the URI, and the same status on an archive download
returns `None`, via the first two conjuncts at concrete inputs. -/
theorem c4_fetch_error_amended_witness :
    get_resource_index (str "https://opendata.dwd.de/10_minutes/")
      ⟨404, [], []⟩ (str "") true =
      .error (.fetchFailed (str "https://opendata.dwd.de/10_minutes/")) ∧
    fetch_raw_forecast_xml (str "u") (str "d") ⟨500, [], []⟩ = .ok none :=
  ⟨c4_fetch_error_amended.1 _ _ _ _ (by decide),
   c4_fetch_error_amended.2.1 _ _ _ (by decide)⟩

theorem handle_starttag_eq (acc : List Str) (ev : HtmlTag) :
    handle_starttag acc ev = acc ++ anchorHrefs ev := by
  unfold handle_starttag anchorHrefs
  split
  · rfl
  · simp

theorem foldl_handle_starttag (events : List HtmlTag) (acc : List Str) :
    events.foldl handle_starttag acc = acc ++ concatMap anchorHrefs events := by
  induction events generalizing acc with
  | nil => simp [concatMap]
  | cons ev rest ih =>
    rw [List.foldl_cons, handle_starttag_eq, ih]
    simp [concatMap]

theorem filter_filter' (p q : α → Bool) (l : List α) :
    (l.filter p).filter q = l.filter (fun a => p a && q a) := by
  induction l with
  | nil => rfl
  | cons a as ih =>
    by_cases hp : p a <;> by_cases hq : q a <;>
      simp [List.filter_cons, hp, hq, ih]

theorem hrefFilter_eq (attrs : List (Str × Str)) :
    attrs.filterMap
      (fun kv => if kv.1 = str "href" ∧ kv.2 ≠ str "../" then some kv.2 else none) =
    (attrs.filterMap (fun kv => if kv.1 = str "href" then some kv.2 else none)).filter
      (fun p => decide (p ≠ str "../")) := by
  induction attrs with
  | nil => rfl
  | cons kv rest ih =>
    by_cases h1 : kv.1 = str "href" <;> by_cases h2 : kv.2 = str "../" <;>
      simp [List.filterMap_cons, h1, h2, ih, List.filter_cons]

theorem anchorHrefs_eq (ev : HtmlTag) :
    anchorHrefs ev = (rawAnchorHrefs ev).filter (fun p => decide (p ≠ str "../")) := by
  unfold anchorHrefs rawAnchorHrefs
  split
  · exact hrefFilter_eq ev.attrs
  · rfl

theorem concatMap_filter (g : α → List β) (q : β → Bool) (l : List α) :
    concatMap (fun e => (g e).filter q) l = (concatMap g l).filter q := by
  induction l with
  | nil => rfl
  | cons a as ih =>
    simp [concatMap, List.filter_append, ih]

theorem concatMap_anchorHrefs (events : List HtmlTag) :
    concatMap anchorHrefs events =
      (concatMap rawAnchorHrefs events).filter (fun p => decide (p ≠ str "../")) := by
  rw [← concatMap_filter]
  have : anchorHrefs = fun ev => (rawAnchorHrefs ev).filter (fun p => decide (p ≠ str "../")) := by
    funext ev
    exact anchorHrefs_eq ev
  rw [this]

/-- C9: the HTML directory-listing resolver returns, in document order, the
anchor `href` links with the parent-directory anchor `"../"` excluded and —
when a non-empty extension filter is given — exactly the links containing
that substring; with absolute output requested each kept link is joined
against the requested URI's base, and otherwise the bare link is returned
with every trailing path separator stripped. -/
theorem c9_htmllist_resolver :
    ∀ (base : Str) (events : List HtmlTag) (ext : Str),
      parse_htmllist base events ext true =
        ((concatMap rawAnchorHrefs events).filter
          (fun p => decide (p ≠ str "../") && (ext.isEmpty || isSubstr ext p))).map
          (fun p => pyUrljoin (base ++ ['/']) p)
      ∧ parse_htmllist base events ext false =
        ((concatMap rawAnchorHrefs events).filter
          (fun p => decide (p ≠ str "../") && (ext.isEmpty || isSubstr ext p))).map
          (rstrip '/') := by
  intro base events ext
  have hpaths :
      (if ¬ ext.isEmpty
        then (events.foldl handle_starttag []).filter (fun p => isSubstr ext p)
        else events.foldl handle_starttag []) =
      (concatMap rawAnchorHrefs events).filter
        (fun p => decide (p ≠ str "../") && (ext.isEmpty || isSubstr ext p)) := by
    rw [foldl_handle_starttag, List.nil_append, concatMap_anchorHrefs]
    by_cases hext : ext.isEmpty
    · simp [hext]
    · rw [if_pos (by simpa using hext), filter_filter']
      simp [hext]
  constructor
  · show (if ¬ ext.isEmpty
        then (events.foldl handle_starttag []).filter (fun p => isSubstr ext p)
        else events.foldl handle_starttag []).map (fun p => pyUrljoin (base ++ ['/']) p) = _
    rw [hpaths]
  · show (if ¬ ext.isEmpty
        then (events.foldl handle_starttag []).filter (fun p => isSubstr ext p)
        else events.foldl handle_starttag []).map (rstrip '/') = _
    rw [hpaths]

theorem dateTypeChecks_some {reqs0 reqs : List NetReq} {ds de : PyVal} {e : GdErr}
    (h : dateTypeChecks reqs0 ds de = (reqs, some e)) : reqs = reqs0 := by
  unfold dateTypeChecks at h
  split at h
  · injection h with h1 _
    exact h1.symm
  · split at h
    · injection h with h1 _
      exact h1.symm
    · injection h with _ h2
      cases h2

theorem getDataChecks_some {env : Env} {p : Str} {sids ds de : PyVal} {res : Str}
    {reqs : List NetReq} {e : GdErr}
    (h : getDataChecks env p sids ds de res = (reqs, some e)) :
    (∀ u, NetReq.dataFile u ∉ reqs) ∧
    (e ≠ .assertResolution → NetReq.paramIndex ∈ reqs) := by
  unfold getDataChecks at h
  split at h
  · injection h with h1 h2
    injection h2 with h2
    subst h1; subst h2
    exact ⟨by simp, fun hne => absurd rfl hne⟩
  · split at h
    · injection h with h1 h2
      subst h1
      exact ⟨by simp, fun _ => by simp⟩
    · split at h
      · split at h
        · split at h
          · injection h with h1 h2
            subst h1
            exact ⟨by simp, fun _ => by simp⟩
          · have h1 := dateTypeChecks_some h
            subst h1
            exact ⟨by simp, fun _ => by simp⟩
        · injection h with h1 h2
          subst h1
          exact ⟨by simp, fun _ => by simp⟩
      · have h1 := dateTypeChecks_some h
        subst h1
        exact ⟨by simp, fun _ => by simp⟩

theorem urlStationFilter_error {sids : PyVal} {urls : List Str} {e : GdErr}
    (h : urlStationFilter sids urls = .error e) : e = .typeError := by
  unfold urlStationFilter at h
  split at h
  · split at h
    · cases h
    · cases h
      rfl
  · cases h

theorem urlStartFilter_error {ds : PyVal} {c : UTCTime} {urls : List Str} {e : GdErr}
    (h : urlStartFilter ds c urls = .error e) : e = .typeError := by
  unfold urlStartFilter at h
  split at h
  · split at h
    · cases h
    · cases h
      rfl
  · cases h

theorem urlEndFilter_error {de : PyVal} {ny : Nat} {urls : List Str} {e : GdErr}
    (h : urlEndFilter de ny urls = .error e) : e = .typeError := by
  unfold urlEndFilter at h
  split at h
  · split at h
    · cases h
    · cases h
      rfl
  · cases h

theorem filteredUrls_error {env : Env} {sids ds de : PyVal} {c : UTCTime} {ny : Nat}
    {e : GdErr} (h : filteredUrls env sids ds de c ny = .error e) : e = .typeError := by
  unfold filteredUrls at h
  split at h
  · cases h
    rename_i he
    exact urlStationFilter_error he
  · unfold urlDateFilters at h
    split at h
    · cases h
      rename_i he
      exact urlStartFilter_error he
    · exact urlEndFilter_error h

theorem rowStartFilter_error {ds : PyVal} {df : List MRow} {e : GdErr}
    (h : rowStartFilter ds df = .error e) : e = .typeError := by
  unfold rowStartFilter at h
  split at h
  · split at h
    · cases h
    · cases h
      rfl
  · cases h

theorem rowEndFilter_error {de : PyVal} {df : List MRow} {e : GdErr}
    (h : rowEndFilter de df = .error e) : e = .typeError := by
  unfold rowEndFilter at h
  split at h
  · split at h
    · cases h
    · cases h
      rfl
  · cases h

theorem applyDateRowFilters_error {ds de : PyVal} {df : List MRow} {e : GdErr}
    (h : applyDateRowFilters ds de df = .error e) : e = .typeError := by
  unfold applyDateRowFilters at h
  split at h
  · cases h
    rename_i he
    exact rowStartFilter_error he
  · exact rowEndFilter_error h

theorem fetchLoop_error {env : Env} {ds de : PyVal} {us : List Str}
    {reqs : List NetReq} {e : GdErr}
    (h : fetchLoop env ds de us = (reqs, .error e)) : e = .typeError := by
  induction us generalizing reqs with
  | nil =>
    unfold fetchLoop at h
    injection h with _ h2
    cases h2
  | cons u us ih =>
    unfold fetchLoop at h
    cases hadf : applyDateRowFilters ds de (env.fetch u) with
    | error e0 =>
      rw [hadf] at h
      injection h with _ h2
      injection h2 with h2
      subst h2
      exact applyDateRowFilters_error hadf
    | ok df =>
      rw [hadf] at h
      cases hfl : fetchLoop env ds de us with
      | mk rs res =>
        rw [hfl] at h
        cases res with
        | error e1 =>
          injection h with _ h2
          injection h2 with h2
          subst h2
          exact ih hfl
        | ok dfs =>
          injection h with _ h2
          cases h2

/-- C6: the claim says that with `run_checks` enabled an invalid argument
raises its validation error before any network activity.  The very check
that rejects an unknown parameter name however compares it against
`get_measurement_parameters(resolution)`, which fetches the remote parameter
index first: on a concrete call with parameter `bogus` the error is raised
with one network request already issued, so the error does not precede all
network activity (the non-empty second conjunct names that request). -/
theorem c6_validation_counterexample :
    get_data ⟨[str "air_temperature"], [], [], fun _ => []⟩ (str "bogus")
      .pyNone .pyNone .pyNone (str "10_minutes") true ⟨2024, 1, 1, 0, 0⟩ 2025 =
      ([NetReq.paramIndex], .error .nameErrorUnknownParameter) ∧
    ([NetReq.paramIndex] : List NetReq) ≠ [] := by
  exact ⟨rfl, by decide⟩

/-- C6 (amended): with `run_checks` enabled, each invalid caller-supplied
argument — unknown parameter name, station id missing from the authoritative
list, or truthy date filter of the wrong type — raises its validation error
before any measurement-data file is downloaded, but not before all network
activity: the parameter-name check itself has already fetched the parameter
index, so at least that request precedes every such validation error. -/
theorem c6_validation_amended :
    ∀ (env : Env) (p : Str) (sids ds de : PyVal) (c : UTCTime) (ny : Nat) (e : GdErr),
      (get_data env p sids ds de (str "10_minutes") true c ny).2 = .error e →
      (e = .nameErrorUnknownParameter ∨ e = .assertStationIdsType ∨
       e = .assertMissingStations ∨ e = .assertDateStartType ∨ e = .assertDateEndType) →
      (∀ u, NetReq.dataFile u ∉ (get_data env p sids ds de (str "10_minutes") true c ny).1) ∧
      NetReq.paramIndex ∈ (get_data env p sids ds de (str "10_minutes") true c ny).1 := by
  intro env p sids ds de c ny e h hval
  cases hck : getDataChecks env p sids ds de (str "10_minutes") with
  | mk reqs oe =>
    cases oe with
    | some e0 =>
      have hgd : get_data env p sids ds de (str "10_minutes") true c ny = (reqs, .error e0) := by
        simp [get_data, hck]
      rw [hgd] at h
      simp only [Except.error.injEq] at h
      subst h
      obtain ⟨h1, h2⟩ := getDataChecks_some hck
      rw [hgd]
      refine ⟨h1, h2 ?_⟩
      rcases hval with rfl | rfl | rfl | rfl | rfl <;> decide
    | none =>
      exfalso
      cases hfu : filteredUrls env sids ds de c ny with
      | error e1 =>
        have hgd : get_data env p sids ds de (str "10_minutes") true c ny =
            (reqs ++ [.gatherUrls], .error e1) := by
          simp [get_data, hck, hfu]
        rw [hgd] at h
        simp only [Except.error.injEq] at h
        subst h
        have he := filteredUrls_error hfu
        rcases hval with rfl | rfl | rfl | rfl | rfl <;> cases he
      | ok urls =>
        cases hfl : fetchLoop env ds de urls with
        | mk lreqs res =>
          cases res with
          | error e2 =>
            have hgd : get_data env p sids ds de (str "10_minutes") true c ny =
                (reqs ++ .gatherUrls :: lreqs, .error e2) := by
              simp [get_data, hck, hfu, hfl]
            rw [hgd] at h
            simp only [Except.error.injEq] at h
            subst h
            have he := fetchLoop_error hfl
            rcases hval with rfl | rfl | rfl | rfl | rfl <;> cases he
          | ok dfs =>
            by_cases hemp : urls.isEmpty
            · have hgd : get_data env p sids ds de (str "10_minutes") true c ny =
                  (reqs ++ .gatherUrls :: lreqs, .error .concatError) := by
                simp [get_data, hck, hfu, hfl, hemp]
              rw [hgd] at h
              simp only [Except.error.injEq] at h
              subst h
              rcases hval with h' | h' | h' | h' | h' <;> cases h'
            · have hgd : get_data env p sids ds de (str "10_minutes") true c ny =
                  (reqs ++ .gatherUrls :: lreqs, .ok (getDataDedup dfs.flatten)) := by
                simp [get_data, hck, hfu, hfl, hemp]
              rw [hgd] at h
              cases h

/-- Witness for the amended C6: a truthy non-timestamp `date_start` raises
its validation error after the parameter-index fetch but before any data
download, via the theorem at a concrete input. -/
theorem c6_validation_amended_witness :
    (∀ u, NetReq.dataFile u ∉
      (get_data ⟨[str "air_temperature"], [], [], fun _ => []⟩ (str "air_temperature")
        .pyNone (.pyOther true) .pyNone (str "10_minutes") true ⟨2024, 1, 1, 0, 0⟩ 2025).1) ∧
    NetReq.paramIndex ∈
      (get_data ⟨[str "air_temperature"], [], [], fun _ => []⟩ (str "air_temperature")
        .pyNone (.pyOther true) .pyNone (str "10_minutes") true ⟨2024, 1, 1, 0, 0⟩ 2025).1 :=
  c6_validation_amended ⟨[str "air_temperature"], [], [], fun _ => []⟩
    (str "air_temperature") .pyNone (.pyOther true) .pyNone ⟨2024, 1, 1, 0, 0⟩ 2025
    .assertDateStartType (by rfl)
    (Or.inr (Or.inr (Or.inr (Or.inl rfl))))

/-- C10: whenever the station-id and time-window url filters of `get_data`
leave zero candidate resource urls, the call raises the `ValueError` of
`pd.concat([])` (concatenating an empty list of parsed tables) instead of
returning an empty result table.  The hypothesis admits any call that
reaches the fetch phase: checks disabled, or the `run_checks` block passing. -/
theorem c10_empty_concat_raises :
    ∀ (env : Env) (p : Str) (sids ds de : PyVal) (res : Str) (rc : Bool)
      (c : UTCTime) (ny : Nat),
      (rc = false ∨ (getDataChecks env p sids ds de res).2 = none) →
      filteredUrls env sids ds de c ny = .ok [] →
      (get_data env p sids ds de res rc c ny).2 = .error .concatError := by
  intro env p sids ds de res rc c ny hchk hurls
  cases hck : getDataChecks env p sids ds de res with
  | mk reqs oe =>
    cases rc with
    | false =>
      simp [get_data, hurls, fetchLoop]
    | true =>
      rcases hchk with hfalse | hnone
      · cases hfalse
      · rw [hck] at hnone
        simp only at hnone
        subst hnone
        simp [get_data, hck, hurls, fetchLoop]

/-- Witness for C10: a gathered list with one historical archive for station
00100, filtered by the absent station id 99999, leaves no candidate url and
the call raises the concat error, via the theorem at a concrete input. -/
theorem c10_empty_concat_raises_witness :
    (get_data ⟨[], [], [str "10minutenwerte_TU_00100_hist.zip"], fun _ => []⟩
      (str "air_temperature") (.pyList [str "99999"]) .pyNone .pyNone
      (str "10_minutes") false ⟨2024, 1, 1, 0, 0⟩ 2025).2 = .error .concatError :=
  c10_empty_concat_raises ⟨[], [], [str "10minutenwerte_TU_00100_hist.zip"], fun _ => []⟩
    (str "air_temperature") (.pyList [str "99999"]) .pyNone .pyNone
    (str "10_minutes") false ⟨2024, 1, 1, 0, 0⟩ 2025 (Or.inl rfl) (by rfl)
